import Mathlib

/-!
# Interview session controller (`src/InterviewScreen.js`)

A shallow embedding of the React component `InterviewScreen`: its seven state
cells, the three handlers that write them (`handleStartInterview`,
`handleSubmitAnswer`, `handleVisibilityChange`), the inline reset of the
"Start New Interview" button, and the render conditions that decide which
control is on screen.

Each handler is one transition: the state cells it reads are those of the
render that created it, the answer of the backend is an argument, and the
alerts, console errors and HTTP requests it issues are returned as a trace.
-/

namespace InterviewScreen

/-! ## JavaScript values -/

/-- The JavaScript values that flow through the component: what `JSON.parse`
can return, and `undefined` for a missing property or an index out of range.
Numbers are only stored and shown, never computed on; they are kept as
integers. -/
inductive JSValue where
  | undefined : JSValue
  | null : JSValue
  | bool (b : Bool) : JSValue
  | num (n : Int) : JSValue
  | str (s : String) : JSValue
  | arr (xs : List JSValue) : JSValue
  | obj (ps : List (String × JSValue)) : JSValue

/-- A plain object: its own enumerable properties, in insertion order. -/
abbrev JSObject := List (String × JSValue)

/-- Property read `o[k]` as an option. When a member name occurs twice in a
decoded JSON text the later one wins, as with `JSON.parse`. -/
def findProp : JSObject → String → Option JSValue
  | [], _ => none
  | (k', v) :: rest, k =>
    match findProp rest k with
    | some w => some w
    | none => if k' = k then some v else none

/-- Property read `o.k`: `undefined` when the property is absent. -/
def getProp (o : JSObject) (k : String) : JSValue :=
  (findProp o k).getD JSValue.undefined

/-- Property write `o[k] = v`: an existing property keeps its place, a new one
goes last. -/
def setProp (o : JSObject) (k : String) (v : JSValue) : JSObject :=
  if (findProp o k).isSome then
    o.map (fun p => (p.1, if p.1 = k then v else p.2))
  else
    o ++ [(k, v)]

/-- The own enumerable properties that an object spread `...v` copies: the
members of an object, the indexed elements of an array, the indexed
characters of a string, and nothing for `undefined`, `null`, booleans and
numbers. -/
def ownEntries : JSValue → JSObject
  | JSValue.obj ps => ps
  | JSValue.arr xs => xs.enum.map (fun p => (toString p.1, p.2))
  | JSValue.str s => s.toList.enum.map (fun p => (toString p.1, JSValue.str (String.singleton p.2)))
  | _ => []

/-- Object spread `{ ...target, ...src }` onto an object under construction:
each own property of `src` is written in turn. -/
def spread (target : JSObject) (src : JSValue) : JSObject :=
  (ownEntries src).foldl (fun o p => setProp o p.1 p.2) target

/-- Array read `xs[i]`: `undefined` when `i` is out of range. -/
def index (xs : List JSValue) (i : Nat) : JSValue :=
  xs.getD i JSValue.undefined

/-! ## Component state -/

/-- The seven `useState` cells of `InterviewScreen` (lines 8-14). -/
structure State where
  domain : String
  questions : List JSValue
  currentQuestionIndex : Nat
  results : List JSObject
  isLoading : Bool
  interviewStarted : Bool
  violationCount : JSValue

/-- The initial values passed to `useState` (lines 8-14). -/
def initialState : State :=
  { domain := ""
    questions := []
    currentQuestionIndex := 0
    results := []
    isLoading := false
    interviewStarted := false
    violationCount := JSValue.num 0 }

/-- What a handler does to the outside world. -/
inductive Effect where
  | alert (message : String) : Effect
  | consoleError (message : String) : Effect
  | post (path : String) (body : JSObject) : Effect

/-- Whether an effect is a request to the backend. -/
def Effect.isRequest : Effect → Bool
  | Effect.post _ _ => true
  | _ => false

/-- Whether an effect is a user-facing notice. -/
def Effect.isNotice : Effect → Bool
  | Effect.alert _ => true
  | _ => false

/-! ## Backend answers -/

/-- How `POST /start-interview` and the decode of its `questions` payload end
(lines 43-44). The payload is a serialized ordered list; a payload that
decodes to something other than an array is not covered. -/
inductive StartResponse where
  | requestFailed : StartResponse
  | parseFailed : StartResponse
  | parsed (parsedQuestions : List JSValue) : StartResponse

/-- How the fetch of the recorded blob, `POST /submit-answer` and the decode of
its `evaluation` payload end (lines 81-90). -/
inductive SubmitResponse where
  | blobFailed : SubmitResponse
  | requestFailed : SubmitResponse
  | parseFailed : SubmitResponse
  | parsed (transcribedText : JSValue) (evaluationData : JSValue) : SubmitResponse

/-- How `POST /log-violation` ends (lines 21-22): the promise is rejected, or
it resolves and `response.data.count` is read. -/
inductive ViolationResponse where
  | failed : ViolationResponse
  | count (c : JSValue) : ViolationResponse

/-! ## Handlers -/

/-- Lines 36-54. -/
def handleStartInterview (s : State) (r : StartResponse) : State × List Effect :=
  if s.domain = "" then
    (s, [Effect.alert "Please enter a domain."])
  else
    let request := Effect.post "/start-interview" [("domain", JSValue.str s.domain)]
    match r with
    | StartResponse.parsed parsedQuestions =>
      ({ s with
          questions := parsedQuestions
          interviewStarted := true
          currentQuestionIndex := 0
          results := []
          isLoading := false },
       [request])
    | _ =>
      ({ s with isLoading := false },
       [request,
        Effect.consoleError "Error starting interview:",
        Effect.alert "Failed to start the interview. Please check the backend server."])

/-- The object literal of lines 91-95:
`{ question: questions[currentQuestionIndex], answer: transcribed_text, ...evaluationData }`. -/
def newResult (s : State) (transcribedText evaluationData : JSValue) : JSObject :=
  spread
    [("question", index s.questions s.currentQuestionIndex), ("answer", transcribedText)]
    evaluationData

/-- Lines 79-110. A failed blob fetch (line 81) throws before the `try`, so
neither the `catch` nor the final `setIsLoading(false)` runs. -/
def handleSubmitAnswer (s : State) (r : SubmitResponse) : State × List Effect :=
  let request := Effect.post "/submit-answer"
    [("audio", JSValue.str "answer.webm"), ("question", index s.questions s.currentQuestionIndex)]
  match r with
  | SubmitResponse.blobFailed => ({ s with isLoading := true }, [])
  | SubmitResponse.parsed transcribedText evaluationData =>
    let results := s.results ++ [newResult s transcribedText evaluationData]
    if (s.currentQuestionIndex : Int) < (s.questions.length : Int) - 1 then
      ({ s with
          results := results
          currentQuestionIndex := s.currentQuestionIndex + 1
          isLoading := false },
       [request])
    else
      ({ s with
          results := results
          interviewStarted := false
          isLoading := false },
       [request, Effect.alert "Interview completed!"])
  | _ =>
    ({ s with isLoading := false },
     [request,
      Effect.consoleError "Error submitting answer:",
      Effect.alert "Failed to process your answer."])

/-- Lines 18-24, with `document.hidden` as an argument. -/
def handleVisibilityChange (s : State) (hidden : Bool) (r : ViolationResponse) :
    State × List Effect :=
  if hidden && s.interviewStarted then
    let effects :=
      [Effect.alert "You have navigated away from the interview. This is a violation.",
       Effect.post "/log-violation" []]
    match r with
    | ViolationResponse.count c => ({ s with violationCount := c }, effects)
    | ViolationResponse.failed => (s, effects)
  else
    (s, [])

/-- The `onClick` of the "Start New Interview" button (line 158). -/
def startNewInterview (s : State) : State :=
  { s with results := [], domain := "", questions := [] }

/-- The `onChange` of the domain input (line 121). -/
def setDomain (s : State) (value : String) : State :=
  { s with domain := value }

/-- Line 112. -/
def currentQuestion (s : State) : JSValue :=
  index s.questions s.currentQuestionIndex

/-! ## What is on screen -/

/-- The domain input and the start button are rendered (line 116). -/
def showsStartForm (s : State) : Bool :=
  !s.interviewStarted && s.results.length == 0

/-- The start button is rendered and not disabled (lines 116, 124). -/
def startEnabled (s : State) : Bool :=
  showsStartForm s && !s.isLoading

/-- The question card with the recording controls is rendered (line 132). -/
def showsQuestionCard (s : State) : Bool :=
  s.interviewStarted && !s.isLoading

/-- The "Start New Interview" button is rendered (lines 146, 157). -/
def showsResetButton (s : State) : Bool :=
  decide (s.results.length > 0) && !s.interviewStarted

/-! ## Sessions -/

/-- What can happen to the page, with the answer of the backend where one is
asked. -/
inductive Event where
  | typeDomain (value : String) : Event
  | clickStart (r : StartResponse) : Event
  | recordingReady (r : SubmitResponse) : Event
  | clickReset : Event
  | visibilityChange (hidden : Bool) (r : ViolationResponse) : Event

/-- One event. A control that is not on screen cannot be used: the event then
leaves the state as it is. A recording can only be stopped, and so submitted
(lines 72-76), from the question card. -/
def step (s : State) : Event → State
  | Event.typeDomain value => if showsStartForm s then setDomain s value else s
  | Event.clickStart r => if startEnabled s then (handleStartInterview s r).1 else s
  | Event.recordingReady r => if showsQuestionCard s then (handleSubmitAnswer s r).1 else s
  | Event.clickReset => if showsResetButton s then startNewInterview s else s
  | Event.visibilityChange hidden r => (handleVisibilityChange s hidden r).1

/-- A sequence of events, from the left. -/
def run (s : State) (events : List Event) : State :=
  events.foldl step s

/-- Whether an event is a start whose decoded question list is empty. -/
def Event.startsEmpty : Event → Bool
  | Event.clickStart (StartResponse.parsed []) => true
  | _ => false

/-- A run of successful submissions, one per backend answer
`(transcribed_text, evaluation)`. -/
def submitAll (s : State) (answers : List (JSValue × JSValue)) : State :=
  answers.foldl (fun t a => (handleSubmitAnswer t (SubmitResponse.parsed a.1 a.2)).1) s

/-! ## The scenario of the specification -/

/-- The question list of the scenario. -/
def demoQuestions : List JSValue :=
  [JSValue.str "What is a closure?", JSValue.str "Explain CSS flexbox."]

/-- The evaluation of the scenario, `{feedback: "Good", score: 8}`. -/
def demoEvaluation : JSObject :=
  [("feedback", JSValue.str "Good"), ("score", JSValue.num 8)]

/-- The page after the domain of the scenario has been typed. -/
def demoTyped : State :=
  setDomain initialState "Frontend Development"

/-- The session of the scenario, right after a successful start. -/
def demoStarted : State :=
  (handleStartInterview demoTyped (StartResponse.parsed demoQuestions)).1

/-- A successful answer of the scenario's backend to a submission. -/
def demoAnswer : SubmitResponse :=
  SubmitResponse.parsed (JSValue.str "A closure is...") (JSValue.obj demoEvaluation)

/-! ## Further sessions and the session invariant -/

/-- An evaluation that carries `feedback` and `score`, and a `question` of its
own. -/
def overridingEvaluation : JSObject :=
  [("question", JSValue.str "Explain CSS flexbox."),
   ("feedback", JSValue.str "Good"), ("score", JSValue.num 8)]

/-- The scenario played to its end: the domain is typed, the interview starts
with two questions, and both answers are submitted and evaluated. -/
def demoEnded : State :=
  run initialState
    [Event.typeDomain "Frontend Development",
     Event.clickStart (StartResponse.parsed demoQuestions),
     Event.recordingReady demoAnswer,
     Event.recordingReady demoAnswer]

/-- The page after a start to which the backend answered with an empty
question list. -/
def emptyStarted : State :=
  run initialState
    [Event.typeDomain "Frontend Development",
     Event.clickStart (StartResponse.parsed [])]

/-- The same session after one answer has been recorded, submitted and
evaluated. -/
def emptySubmitted : State :=
  run initialState
    [Event.typeDomain "Frontend Development",
     Event.clickStart (StartResponse.parsed []),
     Event.recordingReady demoAnswer]

/-- While the session is active there is one result per question already
passed and the index is inside the question list; once it is not active there
are no more results than questions. -/
def SessionInvariant (s : State) : Prop :=
  (s.interviewStarted = true →
    s.results.length = s.currentQuestionIndex ∧ s.currentQuestionIndex < s.questions.length) ∧
  (s.interviewStarted = false → s.results.length ≤ s.questions.length)

/-! ## Properties of objects -/

theorem findProp_cons (a : String) (b : JSValue) (rest : JSObject) (k : String) :
    findProp ((a, b) :: rest) k =
      match findProp rest k with
      | some w => some w
      | none => if a = k then some b else none := rfl

theorem findProp_append_single (o : JSObject) (k : String) (v : JSValue) (k' : String) :
    findProp (o ++ [(k, v)]) k' = if k = k' then some v else findProp o k' := by
  induction o with
  | nil => simp [findProp]
  | cons p rest ih =>
    obtain ⟨a, b⟩ := p
    rw [List.cons_append, findProp_cons, findProp_cons, ih]
    by_cases h : k = k'
    · simp [h]
    · simp [h]

theorem findProp_map_replace (o : JSObject) (k : String) (v : JSValue) (k' : String)
    (h : k ≠ k') :
    findProp (o.map (fun p => (p.1, if p.1 = k then v else p.2))) k' = findProp o k' := by
  induction o with
  | nil => simp [findProp]
  | cons p rest ih =>
    obtain ⟨a, b⟩ := p
    rw [List.map_cons, findProp_cons, findProp_cons, ih]
    cases findProp rest k' with
    | some w => rfl
    | none =>
      by_cases ha : a = k'
      · have hak : ¬ a = k := fun e => h (e.symm.trans ha)
        simp only [ha, if_true]
        rw [← ha, if_neg hak]
      · simp [ha]

theorem findProp_map_replace_self (o : JSObject) (k : String) (v : JSValue)
    (h : (findProp o k).isSome = true) :
    findProp (o.map (fun p => (p.1, if p.1 = k then v else p.2))) k = some v := by
  induction o with
  | nil => simp [findProp] at h
  | cons p rest ih =>
    obtain ⟨a, b⟩ := p
    rw [List.map_cons, findProp_cons]
    rw [findProp_cons] at h
    cases hr : findProp rest k with
    | some w =>
      rw [ih (by simp [hr])]
    | none =>
      rw [hr] at h
      by_cases ha : a = k
      · have hn : ∀ l : JSObject, findProp l k = none →
            findProp (l.map (fun p => (p.1, if p.1 = k then v else p.2))) k = none := by
          intro l
          induction l with
          | nil => intro _; rfl
          | cons q l' ihl =>
            obtain ⟨c, d⟩ := q
            intro hq
            rw [findProp_cons] at hq
            rw [List.map_cons, findProp_cons]
            cases hl : findProp l' k with
            | some w => simp [hl] at hq
            | none =>
              rw [hl] at hq
              rw [ihl hl]
              by_cases hc : c = k
              · simp [hc] at hq
              · simp [hc]
        rw [hn rest hr]
        simp [ha]
      · simp [ha] at h

/-- Reading after a write: the written property has the written value, every
other property is as before. -/
theorem findProp_setProp (o : JSObject) (k : String) (v : JSValue) (k' : String) :
    findProp (setProp o k v) k' = if k = k' then some v else findProp o k' := by
  unfold setProp
  by_cases hs : (findProp o k).isSome = true
  · simp only [hs, if_true]
    by_cases h : k = k'
    · subst h
      simp [findProp_map_replace_self o k v hs]
    · simp [h, findProp_map_replace o k v k' h]
  · simp only [hs]
    exact findProp_append_single o k v k'

/-- Reading after a sequence of writes: the last write to the property wins,
and a property that is not written is as before. -/
theorem findProp_foldl_setProp (es : JSObject) (target : JSObject) (k : String) :
    findProp (es.foldl (fun o p => setProp o p.1 p.2) target) k =
      match findProp es k with
      | some w => some w
      | none => findProp target k := by
  induction es generalizing target with
  | nil => simp [findProp]
  | cons p rest ih =>
    obtain ⟨a, b⟩ := p
    simp only [List.foldl_cons, ih, findProp]
    cases findProp rest k with
    | some w => rfl
    | none =>
      simp only [findProp_setProp]
      by_cases h : a = k <;> simp [h]

theorem getProp_spread (target : JSObject) (src : JSValue) (k : String) :
    getProp (spread target src) k =
      match findProp (ownEntries src) k with
      | some w => w
      | none => getProp target k := by
  unfold getProp spread
  rw [findProp_foldl_setProp]
  cases findProp (ownEntries src) k <;> rfl

/-! ## Starting an interview -/

/-- C1: with a non-empty domain, a start whose request succeeds and whose
questions payload decodes to the list `Q` leaves `questions` equal to `Q`,
`results` empty, `currentQuestionIndex` 0 and `interviewStarted` true,
whatever the state before. -/
theorem handleStartInterview_success (s : State) (Q : List JSValue) (h : s.domain ≠ "") :
    (handleStartInterview s (StartResponse.parsed Q)).1.questions = Q ∧
    (handleStartInterview s (StartResponse.parsed Q)).1.results = [] ∧
    (handleStartInterview s (StartResponse.parsed Q)).1.currentQuestionIndex = 0 ∧
    (handleStartInterview s (StartResponse.parsed Q)).1.interviewStarted = true := by
  simp [handleStartInterview, h]

theorem handleStartInterview_success_witness :
    demoTyped.domain ≠ "" ∧
    (handleStartInterview demoTyped (StartResponse.parsed demoQuestions)).1.questions
      = demoQuestions ∧
    (handleStartInterview demoTyped (StartResponse.parsed demoQuestions)).1.results = [] ∧
    (handleStartInterview demoTyped (StartResponse.parsed demoQuestions)).1.currentQuestionIndex
      = 0 ∧
    (handleStartInterview demoTyped (StartResponse.parsed demoQuestions)).1.interviewStarted
      = true :=
  ⟨by decide, handleStartInterview_success demoTyped demoQuestions (by decide)⟩

/-- C5: with an empty domain, a start returns the state it was given, with
every cell as it was, and its only effect is the notice: no request is sent to
the backend, whatever the backend would have answered. -/
theorem handleStartInterview_empty_domain (s : State) (r : StartResponse)
    (h : s.domain = "") :
    (handleStartInterview s r).1 = s ∧
    (handleStartInterview s r).2 = [Effect.alert "Please enter a domain."] ∧
    ∀ e ∈ (handleStartInterview s r).2, e.isRequest = false := by
  simp [handleStartInterview, h, Effect.isRequest]

theorem handleStartInterview_empty_domain_witness :
    initialState.domain = "" ∧
    (handleStartInterview initialState (StartResponse.parsed demoQuestions)).1 = initialState ∧
    (handleStartInterview initialState (StartResponse.parsed demoQuestions)).2
      = [Effect.alert "Please enter a domain."] ∧
    ∀ e ∈ (handleStartInterview initialState (StartResponse.parsed demoQuestions)).2,
      e.isRequest = false :=
  ⟨rfl, handleStartInterview_empty_domain initialState (StartResponse.parsed demoQuestions) rfl⟩

/-- C6: with a non-empty domain, a start whose request fails or whose questions
payload fails to decode emits a user-facing notice and leaves `questions`,
`currentQuestionIndex`, `results` and `interviewStarted` as they were. -/
theorem handleStartInterview_failure (s : State) (r : StartResponse) (h : s.domain ≠ "")
    (hr : r = StartResponse.requestFailed ∨ r = StartResponse.parseFailed) :
    (∃ e ∈ (handleStartInterview s r).2, e.isNotice = true) ∧
    (handleStartInterview s r).1.questions = s.questions ∧
    (handleStartInterview s r).1.currentQuestionIndex = s.currentQuestionIndex ∧
    (handleStartInterview s r).1.results = s.results ∧
    (handleStartInterview s r).1.interviewStarted = s.interviewStarted := by
  rcases hr with hr | hr <;> subst hr <;> simp [handleStartInterview, h, Effect.isNotice]

theorem handleStartInterview_failure_witness :
    demoTyped.domain ≠ "" ∧
    (StartResponse.parseFailed = StartResponse.requestFailed ∨
      StartResponse.parseFailed = StartResponse.parseFailed) ∧
    (∃ e ∈ (handleStartInterview demoTyped StartResponse.parseFailed).2, e.isNotice = true) ∧
    (handleStartInterview demoTyped StartResponse.parseFailed).1.questions
      = demoTyped.questions ∧
    (handleStartInterview demoTyped StartResponse.parseFailed).1.currentQuestionIndex
      = demoTyped.currentQuestionIndex ∧
    (handleStartInterview demoTyped StartResponse.parseFailed).1.results = demoTyped.results ∧
    (handleStartInterview demoTyped StartResponse.parseFailed).1.interviewStarted
      = demoTyped.interviewStarted :=
  ⟨by decide, Or.inr rfl,
    handleStartInterview_failure demoTyped StartResponse.parseFailed (by decide) (Or.inr rfl)⟩

/-! ## Submitting an answer -/

/-- C7: in every state, active or not, a submission whose request fails or whose evaluation payload fails to
decode emits a user-facing notice and leaves `questions`,
`currentQuestionIndex`, `results` and `interviewStarted` as they were: no
result is appended and the index does not advance. -/
theorem handleSubmitAnswer_failure (s : State) (r : SubmitResponse)
    (hr : r = SubmitResponse.requestFailed ∨ r = SubmitResponse.parseFailed) :
    (∃ e ∈ (handleSubmitAnswer s r).2, e.isNotice = true) ∧
    (handleSubmitAnswer s r).1.questions = s.questions ∧
    (handleSubmitAnswer s r).1.currentQuestionIndex = s.currentQuestionIndex ∧
    (handleSubmitAnswer s r).1.results = s.results ∧
    (handleSubmitAnswer s r).1.interviewStarted = s.interviewStarted := by
  rcases hr with hr | hr <;> subst hr <;> simp [handleSubmitAnswer, Effect.isNotice]

theorem handleSubmitAnswer_failure_witness :
    (SubmitResponse.requestFailed = SubmitResponse.requestFailed ∨
      SubmitResponse.requestFailed = SubmitResponse.parseFailed) ∧
    (∃ e ∈ (handleSubmitAnswer demoStarted SubmitResponse.requestFailed).2,
      e.isNotice = true) ∧
    (handleSubmitAnswer demoStarted SubmitResponse.requestFailed).1.questions
      = demoStarted.questions ∧
    (handleSubmitAnswer demoStarted SubmitResponse.requestFailed).1.currentQuestionIndex
      = demoStarted.currentQuestionIndex ∧
    (handleSubmitAnswer demoStarted SubmitResponse.requestFailed).1.results
      = demoStarted.results ∧
    (handleSubmitAnswer demoStarted SubmitResponse.requestFailed).1.interviewStarted
      = demoStarted.interviewStarted :=
  ⟨Or.inl rfl,
    handleSubmitAnswer_failure demoStarted SubmitResponse.requestFailed (Or.inl rfl)⟩

/-- The result appended by a successful submission, and the cells it leaves
alone. -/
theorem handleSubmitAnswer_parsed_results (s : State) (t ev : JSValue) :
    (handleSubmitAnswer s (SubmitResponse.parsed t ev)).1.results
      = s.results ++ [newResult s t ev] ∧
    (handleSubmitAnswer s (SubmitResponse.parsed t ev)).1.questions = s.questions := by
  unfold handleSubmitAnswer
  simp only []
  split <;> simp

/-- C2, as amended: a successful submission whose evaluation decodes to an
object carrying `feedback` and `score`, and no property named `question` or
`answer`, appends exactly one result at the end of `results`; that result has
`question` equal to `questions[currentQuestionIndex]`, `answer` equal to the
transcribed text, and the `feedback` and `score` of the evaluation. -/
theorem handleSubmitAnswer_appends (s : State) (t : JSValue) (ev : JSObject)
    (feedback score : JSValue)
    (hf : findProp ev "feedback" = some feedback) (hsc : findProp ev "score" = some score)
    (hq : findProp ev "question" = none) (ha : findProp ev "answer" = none) :
    (handleSubmitAnswer s (SubmitResponse.parsed t (JSValue.obj ev))).1.results
      = s.results ++ [newResult s t (JSValue.obj ev)] ∧
    getProp (newResult s t (JSValue.obj ev)) "question"
      = index s.questions s.currentQuestionIndex ∧
    getProp (newResult s t (JSValue.obj ev)) "answer" = t ∧
    getProp (newResult s t (JSValue.obj ev)) "feedback" = feedback ∧
    getProp (newResult s t (JSValue.obj ev)) "score" = score := by
  refine ⟨(handleSubmitAnswer_parsed_results s t _).1, ?_, ?_, ?_, ?_⟩
  · rw [newResult, getProp_spread]
    simp only [ownEntries, hq]
    rfl
  · rw [newResult, getProp_spread]
    simp only [ownEntries, ha]
    simp [getProp, findProp]
  · rw [newResult, getProp_spread]
    simp only [ownEntries, hf]
  · rw [newResult, getProp_spread]
    simp only [ownEntries, hsc]

theorem handleSubmitAnswer_appends_witness :
    findProp demoEvaluation "feedback" = some (JSValue.str "Good") ∧
    findProp demoEvaluation "score" = some (JSValue.num 8) ∧
    findProp demoEvaluation "question" = none ∧
    findProp demoEvaluation "answer" = none ∧
    (handleSubmitAnswer demoStarted demoAnswer).1.results
      = [newResult demoStarted (JSValue.str "A closure is...") (JSValue.obj demoEvaluation)] ∧
    getProp (newResult demoStarted (JSValue.str "A closure is...") (JSValue.obj demoEvaluation))
      "question" = JSValue.str "What is a closure?" ∧
    getProp (newResult demoStarted (JSValue.str "A closure is...") (JSValue.obj demoEvaluation))
      "answer" = JSValue.str "A closure is..." ∧
    getProp (newResult demoStarted (JSValue.str "A closure is...") (JSValue.obj demoEvaluation))
      "feedback" = JSValue.str "Good" ∧
    getProp (newResult demoStarted (JSValue.str "A closure is...") (JSValue.obj demoEvaluation))
      "score" = JSValue.num 8 :=
  ⟨rfl, rfl, rfl, rfl,
    handleSubmitAnswer_appends demoStarted (JSValue.str "A closure is...") demoEvaluation
      (JSValue.str "Good") (JSValue.num 8) rfl rfl rfl rfl⟩

/-- C2 fails as stated: the evaluation is spread after `question` and `answer`
(line 94), so an evaluation that carries `feedback` and `score` together with
a `question` of its own replaces the question of the appended result. -/
theorem handleSubmitAnswer_question_overridden :
    findProp overridingEvaluation "feedback" = some (JSValue.str "Good") ∧
    findProp overridingEvaluation "score" = some (JSValue.num 8) ∧
    index demoStarted.questions demoStarted.currentQuestionIndex
      = JSValue.str "What is a closure?" ∧
    (handleSubmitAnswer demoStarted
        (SubmitResponse.parsed (JSValue.str "A closure is...")
          (JSValue.obj overridingEvaluation))).1.results
      = [[("question", JSValue.str "Explain CSS flexbox."),
          ("answer", JSValue.str "A closure is..."),
          ("feedback", JSValue.str "Good"), ("score", JSValue.num 8)]] ∧
    ¬ ∃ r, (handleSubmitAnswer demoStarted
        (SubmitResponse.parsed (JSValue.str "A closure is...")
          (JSValue.obj overridingEvaluation))).1.results = demoStarted.results ++ [r] ∧
      getProp r "question" = index demoStarted.questions demoStarted.currentQuestionIndex := by
  have hres : (handleSubmitAnswer demoStarted
        (SubmitResponse.parsed (JSValue.str "A closure is...")
          (JSValue.obj overridingEvaluation))).1.results
      = [[("question", JSValue.str "Explain CSS flexbox."),
          ("answer", JSValue.str "A closure is..."),
          ("feedback", JSValue.str "Good"), ("score", JSValue.num 8)]] := by
    rfl
  refine ⟨rfl, rfl, rfl, hres, ?_⟩
  rintro ⟨r, hr, hq⟩
  rw [hres] at hr
  have hr' : r = [("question", JSValue.str "Explain CSS flexbox."),
          ("answer", JSValue.str "A closure is..."),
          ("feedback", JSValue.str "Good"), ("score", JSValue.num 8)] := by
    have : demoStarted.results = [] := rfl
    rw [this] at hr
    simpa using hr.symm
  subst hr'
  have h1 : getProp [("question", JSValue.str "Explain CSS flexbox."),
          ("answer", JSValue.str "A closure is..."),
          ("feedback", JSValue.str "Good"), ("score", JSValue.num 8)] "question"
      = JSValue.str "Explain CSS flexbox." := rfl
  have h2 : index demoStarted.questions demoStarted.currentQuestionIndex
      = JSValue.str "What is a closure?" := rfl
  rw [h1, h2] at hq
  injection hq with hq
  exact absurd hq (by decide)

/-! ## Progress through the questions -/

theorem submitAll_nil (s : State) : submitAll s [] = s := rfl

theorem submitAll_cons (s : State) (a : JSValue × JSValue) (rest : List (JSValue × JSValue)) :
    submitAll s (a :: rest)
      = submitAll (handleSubmitAnswer s (SubmitResponse.parsed a.1 a.2)).1 rest := rfl

theorem submitAll_append_single (s : State) (init : List (JSValue × JSValue))
    (a : JSValue × JSValue) :
    submitAll s (init ++ [a])
      = (handleSubmitAnswer (submitAll s init) (SubmitResponse.parsed a.1 a.2)).1 := by
  simp [submitAll, List.foldl_append]

/-- A successful submission with a question left after the current one moves to
it and keeps the session active. -/
theorem handleSubmitAnswer_advances (s : State) (t ev : JSValue)
    (h : s.currentQuestionIndex + 1 < s.questions.length) :
    (handleSubmitAnswer s (SubmitResponse.parsed t ev)).1.currentQuestionIndex
      = s.currentQuestionIndex + 1 ∧
    (handleSubmitAnswer s (SubmitResponse.parsed t ev)).1.interviewStarted
      = s.interviewStarted ∧
    (handleSubmitAnswer s (SubmitResponse.parsed t ev)).1.isLoading = false := by
  have hi : (s.currentQuestionIndex : Int) < (s.questions.length : Int) - 1 := by omega
  simp [handleSubmitAnswer, hi]

/-- A successful submission with no question left after the current one ends
the session and leaves the index where it is. -/
theorem handleSubmitAnswer_ends (s : State) (t ev : JSValue)
    (h : ¬ s.currentQuestionIndex + 1 < s.questions.length) :
    (handleSubmitAnswer s (SubmitResponse.parsed t ev)).1.currentQuestionIndex
      = s.currentQuestionIndex ∧
    (handleSubmitAnswer s (SubmitResponse.parsed t ev)).1.interviewStarted = false ∧
    (handleSubmitAnswer s (SubmitResponse.parsed t ev)).1.isLoading = false := by
  have hi : ¬ (s.currentQuestionIndex : Int) < (s.questions.length : Int) - 1 := by omega
  simp [handleSubmitAnswer, hi]

/-- While questions remain, each successful submission moves one question
forward and keeps the session active. -/
theorem submitAll_advances (answers : List (JSValue × JSValue)) (s : State)
    (h : s.currentQuestionIndex + answers.length < s.questions.length) :
    (submitAll s answers).currentQuestionIndex = s.currentQuestionIndex + answers.length ∧
    (submitAll s answers).interviewStarted = s.interviewStarted ∧
    (submitAll s answers).questions = s.questions := by
  induction answers generalizing s with
  | nil => simp [submitAll_nil]
  | cons a rest ih =>
    rw [submitAll_cons]
    simp only [List.length_cons] at h
    have hstep := handleSubmitAnswer_advances s a.1 a.2 (by omega)
    have hq := (handleSubmitAnswer_parsed_results s a.1 a.2).2
    have := ih (handleSubmitAnswer s (SubmitResponse.parsed a.1 a.2)).1
      (by rw [hstep.1, hq]; omega)
    refine ⟨?_, ?_, ?_⟩
    · rw [this.1, hstep.1, List.length_cons]
      omega
    · rw [this.2.1, hstep.2.1]
    · rw [this.2.2, hq]

/-- C3: in a session started by a successful start with a question list of
length `L`, after `N` successful submissions in a row: if `N < L` the index is
`N` and the session is still started; if `N = L`, with at least one
submission made, the session is no longer started. -/
theorem submitAll_after_start (s : State) (Q : List JSValue)
    (answers : List (JSValue × JSValue)) (h : s.domain ≠ "") :
    (answers.length < Q.length →
      (submitAll (handleStartInterview s (StartResponse.parsed Q)).1 answers).currentQuestionIndex
        = answers.length ∧
      (submitAll (handleStartInterview s (StartResponse.parsed Q)).1 answers).interviewStarted
        = true) ∧
    (1 ≤ answers.length → answers.length = Q.length →
      (submitAll (handleStartInterview s (StartResponse.parsed Q)).1 answers).interviewStarted
        = false) := by
  obtain ⟨hq, -, hi, hs⟩ := handleStartInterview_success s Q h
  constructor
  · intro hlt
    have := submitAll_advances answers (handleStartInterview s (StartResponse.parsed Q)).1
      (by rw [hi, hq]; omega)
    rw [this.1, this.2.1, hi, hs]
    exact ⟨by omega, rfl⟩
  · intro hpos heq
    rcases List.eq_nil_or_concat answers with hnil | ⟨init, a, hcat⟩
    · subst hnil
      simp at hpos
    · subst hcat
      simp only [List.concat_eq_append, List.length_append, List.length_singleton] at heq
      rw [List.concat_eq_append, submitAll_append_single]
      have := submitAll_advances init (handleStartInterview s (StartResponse.parsed Q)).1
        (by rw [hi, hq]; omega)
      refine (handleSubmitAnswer_ends _ a.1 a.2 ?_).2.1
      rw [this.1, this.2.2, hi, hq]
      omega

theorem submitAll_after_start_witness :
    demoTyped.domain ≠ "" ∧
    ((submitAll (handleStartInterview demoTyped (StartResponse.parsed demoQuestions)).1
        [(JSValue.str "A closure is...", JSValue.obj demoEvaluation)]).currentQuestionIndex = 1 ∧
      (submitAll (handleStartInterview demoTyped (StartResponse.parsed demoQuestions)).1
        [(JSValue.str "A closure is...", JSValue.obj demoEvaluation)]).interviewStarted = true) ∧
    (submitAll (handleStartInterview demoTyped (StartResponse.parsed demoQuestions)).1
        [(JSValue.str "A closure is...", JSValue.obj demoEvaluation),
         (JSValue.str "A layout model.", JSValue.obj demoEvaluation)]).interviewStarted = false :=
  ⟨by decide,
    (submitAll_after_start demoTyped demoQuestions
      [(JSValue.str "A closure is...", JSValue.obj demoEvaluation)] (by decide)).1 (by decide),
    (submitAll_after_start demoTyped demoQuestions
      [(JSValue.str "A closure is...", JSValue.obj demoEvaluation),
       (JSValue.str "A layout model.", JSValue.obj demoEvaluation)] (by decide)).2
      (by decide) (by decide)⟩

/-! ## Starting over -/

/-- C8, as amended: in an ended session (`interviewStarted` false, `results`
non-empty) the "Start New Interview" button empties `domain`, `questions` and
`results` and leaves `interviewStarted` false; `currentQuestionIndex`,
`isLoading` and `violationCount` stay as they were. -/
theorem clickReset_clears (s : State) (hs : s.interviewStarted = false)
    (hr : s.results ≠ []) :
    step s Event.clickReset = startNewInterview s ∧
    (step s Event.clickReset).domain = "" ∧
    (step s Event.clickReset).questions = [] ∧
    (step s Event.clickReset).results = [] ∧
    (step s Event.clickReset).interviewStarted = false ∧
    (step s Event.clickReset).currentQuestionIndex = s.currentQuestionIndex ∧
    (step s Event.clickReset).isLoading = s.isLoading ∧
    (step s Event.clickReset).violationCount = s.violationCount := by
  have hpos : 0 < s.results.length := List.length_pos.mpr hr
  have hshow : showsResetButton s = true := by
    simp [showsResetButton, hs, hpos]
  simp [step, hshow, startNewInterview, hs]

theorem clickReset_clears_witness :
    demoEnded.interviewStarted = false ∧
    demoEnded.results ≠ [] ∧
    step demoEnded Event.clickReset = startNewInterview demoEnded ∧
    (step demoEnded Event.clickReset).domain = "" ∧
    (step demoEnded Event.clickReset).questions = [] ∧
    (step demoEnded Event.clickReset).results = [] ∧
    (step demoEnded Event.clickReset).interviewStarted = false ∧
    (step demoEnded Event.clickReset).currentQuestionIndex = demoEnded.currentQuestionIndex ∧
    (step demoEnded Event.clickReset).isLoading = demoEnded.isLoading ∧
    (step demoEnded Event.clickReset).violationCount = demoEnded.violationCount :=
  ⟨rfl, fun h => List.noConfusion h,
    clickReset_clears demoEnded rfl (fun h => List.noConfusion h)⟩

/-- C8 fails as stated: the button does not write `currentQuestionIndex`
(line 158). After the two-question scenario has ended the index is 1, and it
is still 1 after the reset, so the state is not the initial one. -/
theorem clickReset_keeps_index :
    demoEnded.interviewStarted = false ∧
    demoEnded.results ≠ [] ∧
    (step demoEnded Event.clickReset).currentQuestionIndex = 1 ∧
    (step demoEnded Event.clickReset).currentQuestionIndex
      ≠ initialState.currentQuestionIndex := by
  have h1 : (step demoEnded Event.clickReset).currentQuestionIndex = 1 := rfl
  refine ⟨rfl, fun h => List.noConfusion h, h1, ?_⟩
  rw [h1]
  show (1 : Nat) ≠ 0
  decide

/-! ## Violations -/

/-- C9: when the page is hidden and the session is active, the handler asks the
backend and `violationCount` becomes the count of its response, whatever it
was before; when the page is not hidden or the session is not active, nothing
is sent and the state is as it was. Start, submit, reset and typing never
write `violationCount`. -/
theorem violationCount_from_backend :
    (∀ (s : State) (c : JSValue), s.interviewStarted = true →
      (handleVisibilityChange s true (ViolationResponse.count c)).1.violationCount = c ∧
      Effect.post "/log-violation" [] ∈
        (handleVisibilityChange s true (ViolationResponse.count c)).2) ∧
    (∀ (s : State) (hidden : Bool) (r : ViolationResponse),
      (hidden = false ∨ s.interviewStarted = false) →
      handleVisibilityChange s hidden r = (s, [])) ∧
    (∀ (s : State) (r : StartResponse),
      (handleStartInterview s r).1.violationCount = s.violationCount) ∧
    (∀ (s : State) (r : SubmitResponse),
      (handleSubmitAnswer s r).1.violationCount = s.violationCount) ∧
    (∀ s : State, (startNewInterview s).violationCount = s.violationCount) ∧
    (∀ (s : State) (value : String), (setDomain s value).violationCount = s.violationCount) := by
  refine ⟨?_, ?_, ?_, ?_, ?_, ?_⟩
  · intro s c hs
    simp [handleVisibilityChange, hs]
  · intro s hidden r h
    rcases h with h | h <;> simp [handleVisibilityChange, h]
  · intro s r
    unfold handleStartInterview
    split
    · rfl
    · cases r <;> rfl
  · intro s r
    unfold handleSubmitAnswer
    cases r with
    | parsed t ev =>
      simp only []
      split <;> rfl
    | blobFailed => rfl
    | requestFailed => rfl
    | parseFailed => rfl
  · intro s
    rfl
  · intro s value
    rfl

theorem violationCount_from_backend_witness :
    demoStarted.interviewStarted = true ∧
    (handleVisibilityChange demoStarted true
      (ViolationResponse.count (JSValue.num 5))).1.violationCount = JSValue.num 5 ∧
    handleVisibilityChange demoEnded true (ViolationResponse.count (JSValue.num 5))
      = (demoEnded, []) :=
  ⟨rfl,
    (violationCount_from_backend.1 demoStarted (JSValue.num 5) rfl).1,
    violationCount_from_backend.2.1 demoEnded true (ViolationResponse.count (JSValue.num 5))
      (Or.inr rfl)⟩

/-! ## Sessions with an empty question list -/

/-- C4 at an empty question list: the start succeeds and shows the question
card, the recorded answer is submitted, and its result is appended, which
leaves one result for no question. -/
theorem results_exceed_questions_on_empty_list :
    showsQuestionCard emptyStarted = true ∧
    emptySubmitted.questions.length = 0 ∧
    emptySubmitted.results.length = 1 ∧
    ¬ emptySubmitted.results.length ≤ emptySubmitted.questions.length := by
  refine ⟨rfl, rfl, rfl, ?_⟩
  show ¬ (1 : Nat) ≤ 0
  decide

/-- C10 at an empty question list: the session is active and the question card
is shown with index 0 into a list of length 0, so the current question is
`undefined`, and it is what a submission sends to the backend. -/
theorem index_invalid_on_empty_list :
    emptyStarted.interviewStarted = true ∧
    showsQuestionCard emptyStarted = true ∧
    emptyStarted.currentQuestionIndex = 0 ∧
    emptyStarted.questions.length = 0 ∧
    ¬ emptyStarted.currentQuestionIndex < emptyStarted.questions.length ∧
    currentQuestion emptyStarted = JSValue.undefined ∧
    (handleSubmitAnswer emptyStarted demoAnswer).2
      = [Effect.post "/submit-answer"
          [("audio", JSValue.str "answer.webm"), ("question", JSValue.undefined)],
         Effect.alert "Interview completed!"] := by
  refine ⟨rfl, rfl, rfl, rfl, ?_, rfl, rfl⟩
  show ¬ (0 : Nat) < 0
  decide

/-! ## Sessions with non-empty question lists -/

theorem sessionInvariant_initial : SessionInvariant initialState := by
  constructor
  · intro h
    exact absurd h (by decide)
  · intro _
    exact Nat.le_refl 0

theorem sessionInvariant_of_eq (s t : State) (h : SessionInvariant s)
    (hq : t.questions = s.questions) (hi : t.currentQuestionIndex = s.currentQuestionIndex)
    (hr : t.results = s.results) (hs : t.interviewStarted = s.interviewStarted) :
    SessionInvariant t := by
  unfold SessionInvariant at *
  rw [hq, hi, hr, hs]
  exact h

theorem sessionInvariant_start (s : State) (r : StartResponse) (h : SessionInvariant s)
    (hne : r ≠ StartResponse.parsed []) :
    SessionInvariant (handleStartInterview s r).1 := by
  by_cases hd : s.domain = ""
  · rw [(handleStartInterview_empty_domain s r hd).1]
    exact h
  · cases r with
    | parsed Q =>
      obtain ⟨hq, hr, hi, hs⟩ := handleStartInterview_success s Q hd
      have hQ : Q ≠ [] := fun e => hne (by rw [e])
      constructor
      · intro _
        rw [hq, hr, hi]
        exact ⟨rfl, List.length_pos.mpr hQ⟩
      · intro hf
        rw [hs] at hf
        exact absurd hf (by decide)
    | requestFailed =>
      obtain ⟨-, hq, hi, hr, hs⟩ := handleStartInterview_failure s _ hd (Or.inl rfl)
      exact sessionInvariant_of_eq s _ h hq hi hr hs
    | parseFailed =>
      obtain ⟨-, hq, hi, hr, hs⟩ := handleStartInterview_failure s _ hd (Or.inr rfl)
      exact sessionInvariant_of_eq s _ h hq hi hr hs

theorem sessionInvariant_submit (s : State) (r : SubmitResponse) (h : SessionInvariant s)
    (hs : s.interviewStarted = true) :
    SessionInvariant (handleSubmitAnswer s r).1 := by
  obtain ⟨hlen, hlt⟩ := h.1 hs
  cases r with
  | blobFailed => exact sessionInvariant_of_eq s _ h rfl rfl rfl rfl
  | requestFailed =>
    obtain ⟨-, hq, hi, hr, hst⟩ := handleSubmitAnswer_failure s _ (Or.inl rfl)
    exact sessionInvariant_of_eq s _ h hq hi hr hst
  | parseFailed =>
    obtain ⟨-, hq, hi, hr, hst⟩ := handleSubmitAnswer_failure s _ (Or.inr rfl)
    exact sessionInvariant_of_eq s _ h hq hi hr hst
  | parsed t ev =>
    obtain ⟨hr, hq⟩ := handleSubmitAnswer_parsed_results s t ev
    by_cases hmore : s.currentQuestionIndex + 1 < s.questions.length
    · obtain ⟨hi, hst, -⟩ := handleSubmitAnswer_advances s t ev hmore
      constructor
      · intro _
        rw [hr, hq, hi, List.length_append, List.length_singleton, hlen]
        exact ⟨rfl, hmore⟩
      · intro hf
        rw [hst, hs] at hf
        exact absurd hf (by decide)
    · obtain ⟨-, hst, -⟩ := handleSubmitAnswer_ends s t ev hmore
      constructor
      · intro ht
        rw [hst] at ht
        exact absurd ht (by decide)
      · intro _
        rw [hr, hq, List.length_append, List.length_singleton, hlen]
        omega

theorem sessionInvariant_step (s : State) (e : Event) (h : SessionInvariant s)
    (hne : e.startsEmpty = false) : SessionInvariant (step s e) := by
  cases e with
  | typeDomain value =>
    simp only [step]
    split
    · exact sessionInvariant_of_eq s _ h rfl rfl rfl rfl
    · exact h
  | clickStart r =>
    simp only [step]
    split
    · refine sessionInvariant_start s r h ?_
      intro hr
      rw [hr] at hne
      simp [Event.startsEmpty] at hne
    · exact h
  | recordingReady r =>
    simp only [step]
    split
    · rename_i hshow
      have hs : s.interviewStarted = true := by
        simp [showsQuestionCard] at hshow
        exact hshow.1
      exact sessionInvariant_submit s r h hs
    · exact h
  | clickReset =>
    simp only [step]
    split
    · rename_i hshow
      have hs : s.interviewStarted = false := by
        simp [showsResetButton] at hshow
        exact hshow.2
      constructor
      · intro ht
        have : s.interviewStarted = true := ht
        rw [hs] at this
        exact absurd this (by decide)
      · intro _
        exact Nat.le_refl 0
    · exact h
  | visibilityChange hidden r =>
    simp only [step]
    unfold handleVisibilityChange
    split
    · cases r with
      | failed => exact h
      | count c => exact sessionInvariant_of_eq s _ h rfl rfl rfl rfl
    · exact h

/-- Every page reached from the initial one by events of which no start is
answered with an empty question list satisfies the session invariant. -/
theorem sessionInvariant_run (events : List Event)
    (hne : ∀ e ∈ events, e.startsEmpty = false) :
    SessionInvariant (run initialState events) := by
  suffices hgen : ∀ (es : List Event) (s : State), SessionInvariant s →
      (∀ e ∈ es, e.startsEmpty = false) → SessionInvariant (run s es) from
    hgen events initialState sessionInvariant_initial hne
  intro es
  induction es with
  | nil => intro s hs _; exact hs
  | cons e rest ih =>
    intro s hs hall
    exact ih (step s e)
      (sessionInvariant_step s e hs (hall e (List.mem_cons_self e rest)))
      (fun e' he' => hall e' (List.mem_cons_of_mem e he'))

/-- With non-empty question lists, `results` is never longer than
`questions`. -/
theorem results_le_questions_of_nonempty_lists (events : List Event)
    (hne : ∀ e ∈ events, e.startsEmpty = false) :
    (run initialState events).results.length ≤ (run initialState events).questions.length := by
  have h := sessionInvariant_run events hne
  cases hs : (run initialState events).interviewStarted with
  | false => exact h.2 hs
  | true =>
    obtain ⟨h1, h2⟩ := h.1 hs
    omega

/-- With non-empty question lists, the index of an active session is inside
`questions`. -/
theorem index_valid_of_nonempty_lists (events : List Event)
    (hne : ∀ e ∈ events, e.startsEmpty = false)
    (hs : (run initialState events).interviewStarted = true) :
    (run initialState events).currentQuestionIndex
      < (run initialState events).questions.length :=
  ((sessionInvariant_run events hne).1 hs).2

end InterviewScreen
